import Mathlib

/-!
Shallow embedding of the undermoon slot-migration state machine and session
pipeline (src/migration/redis_task.rs, src/common/resp_execution.rs,
src/proxy/session.rs), with theorems settling the frozen claims about them.

Rust `String`/`&str` values are modelled as `List Char` so that every string
operation is structural recursion that the kernel can evaluate.  Where a
definition comes from a file that is not among the given sources
(migration/task.rs, common/version.rs, common/cluster.rs), its doc comment
says `Modelled from the spec:` and follows the wording of the spec.
-/

/-- Rust strings, modelled as character lists. -/
abbrev Str := List Char

/-- Rust `str::split(c)` for a one-character separator: splits at every
occurrence, keeps empty segments, and always returns at least one segment. -/
def splitOnChar (c : Char) : Str → List Str
  | [] => [[]]
  | x :: xs =>
    if x = c then [] :: splitOnChar c xs
    else
      match splitOnChar c xs with
      | [] => [[x]]
      | y :: ys => (x :: y) :: ys

/-- Rust `str::split("\r\n")`, the separator used by
`extract_replicas_from_replication_info`. -/
def splitCrlf : Str → List Str
  | [] => [[]]
  | '\r' :: '\n' :: xs => [] :: splitCrlf xs
  | x :: xs =>
    match splitCrlf xs with
    | [] => [[x]]
    | y :: ys => (x :: y) :: ys

/-- Rust `str::parse::<u64>()` on the digit strings these claims feed it:
rejects the empty string and any non-digit character.  (Overflow and a leading
`+` sign, which the inputs here never contain, are not modelled.) -/
def parse_u64 : Str → Option Nat
  | [] => none
  | cs => cs.foldlM (fun acc c => if c.isDigit then some (acc * 10 + (c.toNat - 48)) else none) 0

/-- Decimal digits, on fuel so that the recursion is structural (the fuel
`n + 1` always suffices since `n / 10 < n` for `n ≥ 10`). -/
def natDigitsAux : Nat → Nat → Str
  | 0, _ => []
  | fuel + 1, n =>
    if n < 10 then [Char.ofNat (48 + n)]
    else natDigitsAux fuel (n / 10) ++ [Char.ofNat (48 + n % 10)]

/-- Decimal digits of a natural number, for the Rust `format!("{}", port)`. -/
def natDigits (n : Nat) : Str := natDigitsAux (n + 1) n

/-- `MigrationState` (migration/task.rs): the totally ordered per-task states. -/
inductive MigrationState where
  | TransferringData
  | PreSwitch
  | SwitchStarted
  | SwitchCommitted
deriving DecidableEq, Repr

/-- Position of a state in the total order
`TransferringData → PreSwitch → SwitchStarted → SwitchCommitted`. -/
def MigrationState.toOrd : MigrationState → Nat
  | .TransferringData => 0
  | .PreSwitch => 1
  | .SwitchStarted => 2
  | .SwitchCommitted => 3

/-- Modelled from the spec: `AtomicMigrationState::set_state` lives in
migration/task.rs, which is not among the given sources.  Spec §3: the state
atom is "compare-and-swap with a floor (never goes backwards)". -/
def set_state (old next : MigrationState) : MigrationState :=
  if old.toOrd ≤ next.toOrd then next else old

/-- `MigrationMeta` (common/cluster.rs, fields per spec §3): the immutable
identity of one migration. -/
structure MigrationMeta where
  epoch : Nat
  src_proxy_address : Str
  src_node_address : Str
  dst_proxy_address : Str
  dst_node_address : Str
deriving DecidableEq, Repr

/-- `ReplicaState` (migration/redis_task.rs): one parsed `slaveN:` row of the
`INFO REPLICATION` text. -/
structure ReplicaState where
  ip : Str
  port : Nat
  state : Str
  offset : Nat
  lag : Nat
deriving DecidableEq, Repr

/-- `HashMap::insert` on the small key/value map `parse_replica_meta` builds:
prepending and looking up the first hit gives the same
last-insert-wins semantics. -/
def kvInsert (m : List (Str × Str)) (k v : Str) : List (Str × Str) :=
  (k, v) :: m

/-- `HashMap::get`. -/
def kvGet (m : List (Str × Str)) (k : Str) : Option Str :=
  (m.find? (fun p => p.1 == k)).map (fun p => p.2)

/-- `ReplicaState::parse_replica_meta`: the value is `k=v` pairs separated by
`,`; a pair without `=` or a missing/ill-typed field is a parse error. -/
def parse_replica_meta (value : Str) : Option ReplicaState := do
  let kv_map ← (splitOnChar ',' value).foldlM
    (fun m kv =>
      match splitOnChar '=' kv with
      | key :: v :: _ => some (kvInsert m key v)
      | _ => none)
    []
  let ip ← kvGet kv_map "ip".toList
  let port ← (kvGet kv_map "port".toList).bind parse_u64
  let state ← kvGet kv_map "state".toList
  let offset ← (kvGet kv_map "offset".toList).bind parse_u64
  let lag ← (kvGet kv_map "lag".toList).bind parse_u64
  pure { ip := ip, port := port, state := state, offset := offset, lag := lag }

/-- `extract_replicas_from_replication_info`: split the info text on `"\r\n"`,
keep lines starting with `slave`, take the text after the first `:`, strip its
trailing character (`String::pop`, an error on an empty value), and parse each
row; a parse error in any row fails the whole extraction. -/
def extract_replicas_from_replication_info (info : Str) : Option (List ReplicaState) :=
  (splitCrlf info).foldlM
    (fun states line =>
      if ¬ ("slave".toList.isPrefixOf line) then some states
      else
        match splitOnChar ':' line with
        | _slavex :: value :: _ =>
          if value.isEmpty then none
          else (parse_replica_meta value.dropLast).map (fun st => states ++ [st])
        | _ => none)
    []

/-- `RedisMigratingTask::replica_state_ready`: some row whose
`format!("{}:{}", ip, port)` equals `meta.dst_node_address` reports
`lag < lag_threshold`. -/
def replica_state_ready (states : List ReplicaState) (meta : MigrationMeta)
    (lag_threshold : Nat) : Bool :=
  states.any (fun st =>
    (st.ip ++ ':' :: natDigits st.port == meta.dst_node_address)
      && decide (st.lag < lag_threshold))

/-- `RedisClientError` (protocol), the variants these loops produce or
inspect. -/
inductive RedisClientError where
  | Done
  | Canceled
  | Closed
deriving DecidableEq, Repr

/-- RESP replies (`Resp`/`BulkStr` of the protocol crate) as far as the
migration handlers inspect them.  Array replies, which both handlers treat
through the same catch-all arm as `Simple`/`Integer`, are not listed. -/
inductive RespV where
  | Simple (s : Str)
  | Error (s : Str)
  | Integer (n : Int)
  | Bulk (s : Option Str)
deriving DecidableEq, Repr

/-- Whether a reply is a RESP error. -/
def RespV.isError : RespV → Bool
  | .Error _ => true
  | _ => false

/-- The reply handler inside `RedisMigratingTask::check_repl_state`: a bulk
reply is parsed (a misparse is logged and polling continues); readiness
returns `Err(Done)`, which ends the polling loop; anything else keeps
polling. -/
def check_repl_handle (meta : MigrationMeta) (lag_threshold : Nat) (response : RespV) :
    Except RedisClientError Unit :=
  match response with
  | RespV.Bulk (some data) =>
    match extract_replicas_from_replication_info data with
    | some states =>
      if replica_state_ready states meta lag_threshold then Except.error RedisClientError.Done
      else Except.ok ()
    | none => Except.ok ()
  | _ => Except.ok ()

/-- `DBSendError` (proxy/database.rs), the variants `redis_task.rs` produces:
`SlotNotFound` carries the rejected command back to the router. -/
inductive DBSendError (τ : Type) where
  | SlotNotFound (cmd : τ)
  | MigrationError
deriving DecidableEq, Repr

/-- `MigrationError` (migration/task.rs), the variants used here. -/
inductive MigrationError where
  | Canceled
  | AlreadyStarted
  | AlreadyEnded
  | IncompatibleVersion
deriving DecidableEq, Repr

/-- The mutable pieces of a `RedisMigratingTask` that `send`, the drain and the
phase futures touch: the state atom, the two flags, the per-task waiting queue
(`cmd_task_sender`/`cmd_task_receiver`) and, for observation, the sequence of
commands handed to backend senders for the destination proxy. -/
structure MigratingTaskState (τ : Type) where
  state : MigrationState
  redirection_stopped : Bool
  blocking : Bool
  queue : List τ
  dst_sent : List τ
deriving DecidableEq, Repr

/-- `RedisMigratingTask::new`: state `TransferringData`, `redirection_stopped`
false, `blocking` true, empty waiting queue. -/
def MigratingTaskState.new (τ : Type) : MigratingTaskState τ :=
  { state := .TransferringData
    redirection_stopped := false
    blocking := true
    queue := []
    dst_sent := [] }

/-- The `while let Ok(cmd_task) = cmd_task_receiver.try_recv()` loop of
`drain_waiting_queue`: dequeue until empty, forwarding each command (a send
failure is logged and the command dropped, so every dequeued command counts as
forwarded to the destination sender). -/
def drain_loop {τ : Type} (sent : List τ) : List τ → List τ
  | [] => sent
  | cmd :: rest => drain_loop (sent ++ [cmd]) rest

/-- `RedisMigratingTask::drain_waiting_queue`: clear `blocking`, create a
sender to the destination proxy, and forward every queued command until
`try_recv` is empty. -/
def drain_waiting_queue {τ : Type} (t : MigratingTaskState τ) : MigratingTaskState τ :=
  { t with blocking := false, queue := [], dst_sent := drain_loop t.dst_sent t.queue }

/-- `RedisMigratingTask::send`.  `sendOk` abstracts whether the backend sender
accepts a task (`CmdTaskSender::send`).  The enqueue into the crossbeam
channel cannot fail while the task holds its receiver, so the `or_else`
fallback of the source is not reachable here.  The second read of `blocking`
(the best-effort re-drain) is mirrored literally; in this one-call model it
sees the same value as the first read. -/
def RedisMigratingTask.send {τ : Type} (sendOk : τ → Bool) (t : MigratingTaskState τ)
    (cmd_task : τ) : MigratingTaskState τ × Except (DBSendError τ) Unit :=
  if t.state = MigrationState.TransferringData ∨ t.redirection_stopped = true then
    (t, Except.error (DBSendError.SlotNotFound cmd_task))
  else if t.blocking = false then
    ({ t with dst_sent := t.dst_sent ++ [cmd_task] },
      if sendOk cmd_task then Except.ok () else Except.error DBSendError.MigrationError)
  else
    let t1 := { t with queue := t.queue ++ [cmd_task] }
    let t2 := if t1.blocking = false then drain_waiting_queue t1 else t1
    (t2, Except.ok ())

/-- The atomic actions that touch the shared state of a migrating task, one per
place in `redis_task.rs` that mutates it:
the entry of `commit_switch` (`SwitchStarted`), its reply handler and
the force-commit of `release_queue` (`SwitchCommitted`), the queue drain,
the `stop_redirection` timer, and a client command routed through `send`. -/
inductive MigEvent (τ : Type) where
  | startSwitch
  | commitReply
  | forceCommit
  | drainQueue
  | stopRedirection
  | clientSend (cmd : τ)

/-- Effect of one atomic action on the shared state of the migrating task. -/
def mig_step {τ : Type} (sendOk : τ → Bool) (t : MigratingTaskState τ) :
    MigEvent τ → MigratingTaskState τ
  | .startSwitch => { t with state := set_state t.state MigrationState.SwitchStarted }
  | .commitReply => { t with state := set_state t.state MigrationState.SwitchCommitted }
  | .forceCommit => { t with state := set_state t.state MigrationState.SwitchCommitted }
  | .drainQueue => drain_waiting_queue t
  | .stopRedirection => { t with redirection_stopped := true }
  | .clientSend cmd => (RedisMigratingTask.send sendOk t cmd).1

/-- An execution: the shared state after a sequence of atomic actions. -/
def mig_run {τ : Type} (sendOk : τ → Bool) (t : MigratingTaskState τ)
    (events : List (MigEvent τ)) : MigratingTaskState τ :=
  events.foldl (mig_step sendOk) t

/-- One round of the `stream::iter_ok(iter::repeat(())).fold` inside
`RedisMigratingTask::release_queue`, tracking the accumulated blocking time
(`lasting_time`, milliseconds), the task state, and whether the fold
terminated (`future::err(())` after the drain). -/
structure ReleaseQueueState (τ : Type) where
  lasting_time : Nat
  task : MigratingTaskState τ
  stopped : Bool
deriving DecidableEq, Repr

/-- `RedisMigratingTask::release_queue`, one fold iteration: the first round
waits `min_blocking_time` (the `+1` keeps `lasting_time` non-zero); past
`max_blocking_time` the commit is forced; while the state is not
`SwitchCommitted` the round adds `min(min_blocking_time, 5)` ms; once it is,
the waiting queue is drained and the fold stops. -/
def release_queue_step {τ : Type} (min_blocking_time max_blocking_time : Nat)
    (s : ReleaseQueueState τ) : ReleaseQueueState τ :=
  if s.stopped then s
  else if s.lasting_time = 0 then
    { s with lasting_time := s.lasting_time + min_blocking_time + 1 }
  else
    let forced := decide (max_blocking_time < s.lasting_time)
    let task1 :=
      if forced then { s.task with state := set_state s.task.state MigrationState.SwitchCommitted }
      else s.task
    let delay_time := if forced then 0 else min min_blocking_time 5
    if task1.state ≠ MigrationState.SwitchCommitted then
      { s with task := task1, lasting_time := s.lasting_time + delay_time }
    else
      { s with task := drain_waiting_queue task1, stopped := true }

/-- `release_queue` after `n` fold iterations. -/
def release_queue_run {τ : Type} (min_blocking_time max_blocking_time : Nat) :
    Nat → ReleaseQueueState τ → ReleaseQueueState τ
  | 0, s => s
  | n + 1, s =>
    release_queue_run min_blocking_time max_blocking_time n
      (release_queue_step min_blocking_time max_blocking_time s)


/-- Modelled from the spec: `SERVER_PROXY_VERSION` lives in common/version.rs,
not among the given sources; the scenarios of the spec put the proxies at
version `0.4.0`. -/
def SERVER_PROXY_VERSION : Str := "0.4.0".toList

/-- `SlotRangeTag` (common/cluster.rs, per spec §3). -/
inductive SlotRangeTag where
  | NoneTag
  | Migrating (meta : MigrationMeta)
  | Importing (meta : MigrationMeta)
deriving DecidableEq, Repr

/-- `SlotRange` (common/cluster.rs, per spec §3); the Rust field `end` is
`end_slot` here because `end` is a Lean keyword. -/
structure SlotRange where
  start : Nat
  end_slot : Nat
  tag : SlotRangeTag
deriving DecidableEq, Repr

/-- `MigrationTaskMeta` (migration/task.rs): the db name and tagged slot range
`commit_switch` serializes into the `TMPSWITCH` command. -/
structure MigrationTaskMeta where
  db_name : Str
  slot_range : SlotRange
deriving DecidableEq, Repr

/-- `SwitchArg` (migration/task.rs): the version plus migration meta carried
by `UMCTL TMPSWITCH`. -/
structure SwitchArg where
  version : Str
  meta : MigrationTaskMeta
deriving DecidableEq, Repr

/-- Modelled from the spec: `SwitchArg::into_strings` (migration/task.rs) is
not among the given sources; per spec §6 the wire form is
`<version> <meta-fields...>`. -/
def SwitchArg.into_strings (arg : SwitchArg) : List Str :=
  [arg.version, arg.meta.db_name, natDigits arg.meta.slot_range.start,
   natDigits arg.meta.slot_range.end_slot]

/-- The command `RedisMigratingTask::commit_switch` builds:
`UMCTL TMPSWITCH` followed by the serialized `SwitchArg`. -/
def commit_switch_cmd (arg : SwitchArg) : List Str :=
  "UMCTL".toList :: "TMPSWITCH".toList :: SwitchArg.into_strings arg

/-- The `commit_switch` retry interval, `Duration::new(1, 0)`, in
milliseconds. -/
def commit_switch_interval_ms : Nat := 1000

/-- The reply handler inside `RedisMigratingTask::commit_switch`: a RESP error
reply is logged and the loop keeps retrying; any other reply sets the state to
`SwitchCommitted` — and also returns `Ok(())`, so the loop keeps going. -/
def commit_switch_handle (state : MigrationState) (response : RespV) :
    MigrationState × Except RedisClientError Unit :=
  match response with
  | RespV.Error _ => (state, Except.ok ())
  | _ => (set_state state MigrationState.SwitchCommitted, Except.ok ())

/-- How a run of the `keep_sending_cmd` loop (common/resp_execution.rs) ended
after consuming the supplied client responses. -/
inductive LoopEnd where
  | handlerStopped (e : RedisClientError)
  | clientFailed
  | stillRunning
deriving DecidableEq, Repr

/-- `keep_sending_cmd` (common/resp_execution.rs): execute the command, feed
the response to the handler, propagate a handler error (ending the loop),
sleep for the interval, repeat.  The client is modelled as the list of results
its successive `execute` calls produce; `σ` is the state the handler closes
over.  A run that consumes every supplied response without the handler or the
client erring is `stillRunning`: the loop itself never exits otherwise. -/
def keep_sending_cmd_run {σ : Type} (handle : σ → RespV → σ × Except RedisClientError Unit) :
    σ → List (Except RedisClientError RespV) → σ × LoopEnd
  | st, [] => (st, LoopEnd.stillRunning)
  | st, Except.error _ :: _ => (st, LoopEnd.clientFailed)
  | st, Except.ok r :: rest =>
    match handle st r with
    | (st1, Except.error e) => (st1, LoopEnd.handlerStopped e)
    | (st1, Except.ok ()) => keep_sending_cmd_run handle st1 rest

/-- `RedisImportingTask::send`: while the state is not `SwitchCommitted` the
command is forwarded through a sender to the *source* proxy; once committed it
is bounced with `SlotNotFound`.  The second component of the pair records the
backend send attempts as (address, command). -/
def RedisImportingTask.send {τ : Type} (sendOk : τ → Bool) (meta : MigrationMeta)
    (state : MigrationState) (cmd_task : τ) :
    Except (DBSendError τ) Unit × List (Str × τ) :=
  if state = MigrationState.SwitchCommitted then
    (Except.error (DBSendError.SlotNotFound cmd_task), [])
  else
    (if sendOk cmd_task then Except.ok () else Except.error DBSendError.MigrationError,
     [(meta.src_proxy_address, cmd_task)])

/-- `RedisImportingTask::commit`: reject a version mismatch with
`IncompatibleVersion`, otherwise set the state to `SwitchCommitted`.  Returns
the state after the call together with the result of the call. -/
def RedisImportingTask.commit (state : MigrationState) (switch_arg : SwitchArg) :
    MigrationState × Except MigrationError Unit :=
  if switch_arg.version ≠ SERVER_PROXY_VERSION then
    (state, Except.error MigrationError.IncompatibleVersion)
  else
    (set_state state MigrationState.SwitchCommitted, Except.ok ())

/-- `CommandError` (proxy/command.rs), as far as the session turns one into an
error reply; `Dropped` is the error a destroyed `CmdCtx` surfaces. -/
inductive CommandError where
  | Dropped
  | Canceled
  | InnerError
deriving DecidableEq, Repr

/-- `SessionError` (proxy/session.rs). -/
inductive SessionError where
  | Io
  | CmdErr (e : CommandError)
  | InvalidProtocol
  | Canceled
  | InvalidState
deriving DecidableEq, Repr

/-- Debug name of a `CommandError`, for the session format
`format!("Err cmd error {:?}", e)`. -/
def CommandError.debugName : CommandError → Str
  | .Dropped => "Dropped".toList
  | .Canceled => "Canceled".toList
  | .InnerError => "InnerError".toList

/-- The error reply `handle_session` writes when the reply receiver of a request
fails. -/
def cmd_error_packet (e : CommandError) : RespV :=
  RespV.Error ("Err cmd error ".toList ++ e.debugName)

/-- The `reqs.drain(..)` loop of one batch: the packets dispatched before the
first decode error, and that error if one was hit (it terminates the
session before any reply of the batch is written). -/
def collect_batch {α : Type} : List (Except SessionError α) → List α × Option SessionError
  | [] => ([], none)
  | Except.ok x :: rest =>
    let (xs, e) := collect_batch rest
    (x :: xs, e)
  | Except.error e :: _ => ([], some e)

/-- The reply packet the session writes for the request at position `i`:
the backend reply, or the synthesized error reply when the receiver
failed.  `reply` is the oracle for what `wait_response` yields per request
position. -/
def session_reply_packet (reply : Nat → Except CommandError RespV) (i : Nat) : RespV :=
  match reply i with
  | Except.ok p => p
  | Except.error e => cmd_error_packet e

/-- `handle_session` (proxy/session.rs): per batch, dispatch every decoded
request in order, then await the reply receivers in their original order,
then flush the reply packets as one batched write.  `batches` is what the
`try_chunks_timeout` reader yields; `idx` numbers requests across the whole
session.  Returns the packets written to the socket and how the session
ended. -/
def handle_session_run (reply : Nat → Except CommandError RespV) :
    Nat → List (List (Except SessionError RespV)) → List RespV × Except SessionError Unit
  | _, [] => ([], Except.ok ())
  | idx, batch :: rest =>
    match collect_batch batch with
    | (_, some e) => ([], Except.error e)
    | (reqs, none) =>
      let replies := (List.range reqs.length).map (fun i => session_reply_packet reply (idx + i))
      let (written, res) := handle_session_run reply (idx + reqs.length) rest
      (replies ++ written, res)

/-- The request packets the session read from the connection: every decoded
packet up to (not including) the first decode error. -/
def requests_read : List (List (Except SessionError RespV)) → List RespV
  | [] => []
  | batch :: rest =>
    match collect_batch batch with
    | (reqs, some _) => reqs
    | (reqs, none) => reqs ++ requests_read rest

deriving instance DecidableEq for Except

/-- Setting the state atom to the top state always lands on `SwitchCommitted`,
whatever it held before. -/
theorem set_state_committed (st : MigrationState) :
    set_state st MigrationState.SwitchCommitted = MigrationState.SwitchCommitted := by
  cases st <;> rfl

/-- Claim C9: the replication-info line
`slave0:ip=127.0.0.1,port=6000,state=online,offset=233,lag=6699` followed by a
carriage return parses to the expected `ReplicaState` (the trailing character
of the raw value — here the `\r` — is stripped), and the same row without its
`port` key makes the extraction return an error. -/
theorem replication_info_parse_example :
    extract_replicas_from_replication_info
        "slave0:ip=127.0.0.1,port=6000,state=online,offset=233,lag=6699\r".toList
      = some [{ ip := "127.0.0.1".toList, port := 6000, state := "online".toList,
                offset := 233, lag := 6699 }]
    ∧ extract_replicas_from_replication_info
        "slave0:ip=127.0.0.1,state=online,offset=233,lag=6699\r".toList = none := by
  decide

/-- A migration meta for concrete runs: destination node `127.0.0.1:6000`. -/
def demo_meta : MigrationMeta :=
  { epoch := 1
    src_proxy_address := "127.0.0.2:5299".toList
    src_node_address := "127.0.0.2:7001".toList
    dst_proxy_address := "127.0.0.1:5299".toList
    dst_node_address := "127.0.0.1:6000".toList }

/-- Claim C5 counterexample: with `lag_threshold = 0`, a replica row for the
destination node reporting `lag = 0` exactly does not satisfy the readiness
check (`lag < 0` is unsatisfiable), and the polling handler keeps polling
(`Ok`) instead of succeeding (`Err(Done)`). -/
theorem zero_lag_threshold_counterexample :
    replica_state_ready
        [{ ip := "127.0.0.1".toList, port := 6000, state := "online".toList,
           offset := 233, lag := 0 }] demo_meta 0 = false
    ∧ check_repl_handle demo_meta 0
        (RespV.Bulk
          (some "slave0:ip=127.0.0.1,port=6000,state=online,offset=233,lag=0\r".toList))
      = Except.ok () := by
  decide

/-- Claim C5 (amended): readiness requires `lag < lag_threshold` strictly, so
with `lag_threshold = 0` the replication check never succeeds — every reply
keeps the polling loop going, whatever lag the replica rows report. -/
theorem zero_lag_threshold_never_ready (states : List ReplicaState)
    (meta : MigrationMeta) (r : RespV) :
    replica_state_ready states meta 0 = false
    ∧ check_repl_handle meta 0 r = Except.ok () := by
  have hready : ∀ sts : List ReplicaState, replica_state_ready sts meta 0 = false := by
    intro sts
    simp [replica_state_ready]
  refine ⟨hready states, ?_⟩
  cases r with
  | Bulk s =>
    cases s with
    | none => rfl
    | some data =>
      simp only [check_repl_handle]
      cases extract_replicas_from_replication_info data with
      | none => rfl
      | some sts => simp [hready sts]
  | Simple s => rfl
  | Error s => rfl
  | Integer n => rfl

/-- Claim C6: `ImportingTask::commit` returns `Err(IncompatibleVersion)` iff
the version in the argument differs from `SERVER_PROXY_VERSION`, leaving the state
unchanged in that case; on a matching version it sets `SwitchCommitted` and
returns `Ok`. -/
theorem importing_commit_version_gate (st : MigrationState) (arg : SwitchArg) :
    ((RedisImportingTask.commit st arg).2 = Except.error MigrationError.IncompatibleVersion
        ↔ arg.version ≠ SERVER_PROXY_VERSION)
    ∧ (arg.version ≠ SERVER_PROXY_VERSION → (RedisImportingTask.commit st arg).1 = st)
    ∧ (arg.version = SERVER_PROXY_VERSION →
        RedisImportingTask.commit st arg = (MigrationState.SwitchCommitted, Except.ok ())) := by
  by_cases h : arg.version = SERVER_PROXY_VERSION
  · simp [RedisImportingTask.commit, h, set_state_committed st]
  · simp [RedisImportingTask.commit, h]

/-- Claim C10: `commit` validates only the version string — its result is
unchanged under any replacement of the migration meta, and every `SwitchArg`
whose version is `SERVER_PROXY_VERSION` commits regardless of its meta. -/
theorem importing_commit_ignores_meta (st : MigrationState) (arg : SwitchArg)
    (m2 : MigrationTaskMeta) :
    RedisImportingTask.commit st arg
        = RedisImportingTask.commit st { version := arg.version, meta := m2 }
    ∧ (arg.version = SERVER_PROXY_VERSION →
        RedisImportingTask.commit st arg = (MigrationState.SwitchCommitted, Except.ok ())) := by
  constructor
  · simp [RedisImportingTask.commit]
  · intro h
    simp [RedisImportingTask.commit, h, set_state_committed st]

/-- Claim C7: while the state is not `SwitchCommitted`, `ImportingTask::send`
forwards the command through a sender to the source proxy address; once the
state is `SwitchCommitted` it returns `SlotNotFound` carrying the command and
attempts no send. -/
theorem importing_send_direction {τ : Type} (sendOk : τ → Bool) (meta : MigrationMeta)
    (st : MigrationState) (cmd : τ) :
    (st ≠ MigrationState.SwitchCommitted →
      (RedisImportingTask.send sendOk meta st cmd).2 = [(meta.src_proxy_address, cmd)])
    ∧ (st = MigrationState.SwitchCommitted →
      RedisImportingTask.send sendOk meta st cmd
        = (Except.error (DBSendError.SlotNotFound cmd), [])) := by
  by_cases h : st = MigrationState.SwitchCommitted <;>
    simp [RedisImportingTask.send, h]

/-- Claim C8: `MigratingTask::send` returns `SlotNotFound` carrying the
command whenever the state is `TransferringData` or redirection is stopped,
leaving the task untouched — nothing enqueued, nothing forwarded. -/
theorem migrating_send_slot_not_found {τ : Type} (sendOk : τ → Bool)
    (t : MigratingTaskState τ) (cmd : τ)
    (h : t.state = MigrationState.TransferringData ∨ t.redirection_stopped = true) :
    RedisMigratingTask.send sendOk t cmd = (t, Except.error (DBSendError.SlotNotFound cmd)) := by
  unfold RedisMigratingTask.send
  rw [if_pos h]

/-- Claim C8 witness: the theorem at a freshly created task, which is in
`TransferringData`. -/
theorem migrating_send_slot_not_found_witness :
    RedisMigratingTask.send (fun _ => true) (MigratingTaskState.new Nat) 7
      = (MigratingTaskState.new Nat, Except.error (DBSendError.SlotNotFound 7)) :=
  migrating_send_slot_not_found (fun _ => true) (MigratingTaskState.new Nat) 7 (Or.inl rfl)

/-- Claim C1 counterexample: in the execution where the TMPSWITCH reply
commits the switch before the release-queue drain has cleared `blocking`, a
subsequent `send` still pushes the command into the waiting queue — the state
is already `SwitchCommitted`, yet the queue gains the command. -/
theorem send_after_commit_enqueues_counterexample :
    (mig_run (fun _ => true) (MigratingTaskState.new Nat)
        [MigEvent.startSwitch, MigEvent.commitReply]).state = MigrationState.SwitchCommitted
    ∧ (mig_run (fun _ => true) (MigratingTaskState.new Nat)
        [MigEvent.startSwitch, MigEvent.commitReply, MigEvent.clientSend 7]).queue = [7] := by
  decide

/-- A send against a task whose `blocking` flag is cleared never touches the
waiting queue, and leaves the flag cleared. -/
theorem send_nonblocking_queue {τ : Type} (sendOk : τ → Bool) (t : MigratingTaskState τ)
    (h : t.blocking = false) (cmd : τ) :
    (RedisMigratingTask.send sendOk t cmd).1.queue = t.queue
    ∧ (RedisMigratingTask.send sendOk t cmd).1.blocking = false := by
  unfold RedisMigratingTask.send
  by_cases h1 : t.state = MigrationState.TransferringData ∨ t.redirection_stopped = true
  · simp [h1, h]
  · simp [h1, h]

/-- Claim C1 (amended): the enqueue in `send` is gated on `blocking`, not on
the migration state — once the drain has cleared `blocking` (which is how the
post-commit phase ends), no subsequent `send` enqueues into the waiting queue,
and no atomic action of the task ever sets `blocking` again; between the
commit and that first drain, however, a send may still enqueue (the drain then
picks the command up). -/
theorem send_after_drain_never_enqueues {τ : Type} (sendOk : τ → Bool)
    (t : MigratingTaskState τ) (cmd : τ) (e : MigEvent τ)
    (h : t.blocking = false) :
    (RedisMigratingTask.send sendOk t cmd).1.queue = t.queue
    ∧ (mig_step sendOk t e).blocking = false := by
  refine ⟨(send_nonblocking_queue sendOk t h cmd).1, ?_⟩
  cases e with
  | startSwitch => simpa [mig_step] using h
  | commitReply => simpa [mig_step] using h
  | forceCommit => simpa [mig_step] using h
  | drainQueue => simp [mig_step, drain_waiting_queue]
  | stopRedirection => simpa [mig_step] using h
  | clientSend c => exact (send_nonblocking_queue sendOk t h c).2

/-- Claim C1 witness: the amended theorem at a concrete drained task. -/
theorem send_after_drain_never_enqueues_witness :
    (RedisMigratingTask.send (fun _ => true)
        { state := MigrationState.SwitchCommitted, redirection_stopped := false,
          blocking := false, queue := [], dst_sent := [1, 2] } 3).1.queue
      = ({ state := MigrationState.SwitchCommitted, redirection_stopped := false,
           blocking := false, queue := [], dst_sent := [1, 2] } : MigratingTaskState Nat).queue
    ∧ (mig_step (fun _ => true)
        { state := MigrationState.SwitchCommitted, redirection_stopped := false,
          blocking := false, queue := [], dst_sent := [1, 2] } (MigEvent.clientSend 3)).blocking
      = false :=
  send_after_drain_never_enqueues (fun _ => true)
    { state := MigrationState.SwitchCommitted, redirection_stopped := false,
      blocking := false, queue := [], dst_sent := [1, 2] } 3 (MigEvent.clientSend 3) rfl

/-- The drain loop forwards the queued commands in order after what was
already sent. -/
theorem drain_loop_eq_append {τ : Type} :
    ∀ (q sent : List τ), drain_loop sent q = sent ++ q := by
  intro q
  induction q with
  | nil => intro sent; simp [drain_loop]
  | cons c rest ih =>
    intro sent
    simp [drain_loop, ih, List.append_assoc]

/-- The very first fold round of `release_queue` only waits `min_blocking_time`
and records it (plus one, keeping the accumulator non-zero). -/
theorem release_queue_step_first {τ : Type} (minB maxB : Nat) (t : MigratingTaskState τ) :
    release_queue_step minB maxB ⟨0, t, false⟩ = ⟨minB + 1, t, false⟩ := by
  simp [release_queue_step]

/-- A fold round within the blocking window, with the commit unobserved:
the task is untouched and the accumulator advances by `min(min_blocking, 5)`. -/
theorem release_queue_step_advance {τ : Type} (minB maxB L : Nat) (t : MigratingTaskState τ)
    (h0 : 0 < L) (hle : L ≤ maxB) (ht : t.state ≠ MigrationState.SwitchCommitted) :
    release_queue_step minB maxB ⟨L, t, false⟩ = ⟨L + min minB 5, t, false⟩ := by
  simp [release_queue_step, Nat.pos_iff_ne_zero.mp h0, Nat.not_lt.mpr hle, ht]

/-- A fold round past `max_blocking_time`: the commit is forced and the queue
drained in the same round, and the fold stops. -/
theorem release_queue_step_force {τ : Type} (minB maxB L : Nat) (t : MigratingTaskState τ)
    (hgt : maxB < L) :
    release_queue_step minB maxB ⟨L, t, false⟩
      = ⟨L, drain_waiting_queue { t with state := MigrationState.SwitchCommitted }, true⟩ := by
  have h0 : L ≠ 0 := by omega
  simp [release_queue_step, h0, hgt, set_state_committed]

/-- From any accumulator value inside the window, enough fold rounds reach the
forced commit and the drain. -/
theorem release_queue_reaches_drain {τ : Type} (minB maxB : Nat) (hmin : 0 < minB)
    (t : MigratingTaskState τ) (ht : t.state ≠ MigrationState.SwitchCommitted) :
    ∀ (fuel L : Nat), maxB < L + fuel → 0 < L →
      ∃ n L2, maxB < L2
        ∧ release_queue_run minB maxB n ⟨L, t, false⟩
            = ⟨L2, drain_waiting_queue { t with state := MigrationState.SwitchCommitted }, true⟩ := by
  intro fuel
  induction fuel with
  | zero =>
    intro L hfuel h0
    refine ⟨1, L, by omega, ?_⟩
    show release_queue_run minB maxB 0 (release_queue_step minB maxB ⟨L, t, false⟩) = _
    rw [release_queue_step_force minB maxB L t (by omega)]
    rfl
  | succ fuel ih =>
    intro L hfuel h0
    by_cases hgt : maxB < L
    · refine ⟨1, L, hgt, ?_⟩
      show release_queue_run minB maxB 0 (release_queue_step minB maxB ⟨L, t, false⟩) = _
      rw [release_queue_step_force minB maxB L t hgt]
      rfl
    · have hle : L ≤ maxB := Nat.not_lt.mp hgt
      have hd : 0 < min minB 5 := by omega
      obtain ⟨n, L2, hL2, hrun⟩ := ih (L + min minB 5) (by omega) (by omega)
      refine ⟨n + 1, L2, hL2, ?_⟩
      show release_queue_run minB maxB n (release_queue_step minB maxB ⟨L, t, false⟩) = _
      rw [release_queue_step_advance minB maxB L t h0 hle ht]
      exact hrun

/-- Claim C4 (amended): when the commit is never observed (no concurrent
action touches the task) and `min_blocking_time` is positive, enough
`release_queue` fold rounds force the state to `SwitchCommitted` — and only
after the accumulated blocking time exceeds `max_blocking_time` — after which
the waiting queue is drained: every buffered command is dequeued and forwarded
to the destination, the queue ends empty and `blocking` cleared.  With
`min_blocking_time = 0` the fold sticks instead and never forces the commit
(see the counterexample below). -/
theorem release_queue_forces_and_drains {τ : Type} (minB maxB : Nat)
    (t : MigratingTaskState τ) (hmin : 0 < minB)
    (ht : t.state ≠ MigrationState.SwitchCommitted) :
    ∃ n, (release_queue_run minB maxB n ⟨0, t, false⟩).stopped = true
      ∧ (release_queue_run minB maxB n ⟨0, t, false⟩).task.state = MigrationState.SwitchCommitted
      ∧ (release_queue_run minB maxB n ⟨0, t, false⟩).task.queue = []
      ∧ (release_queue_run minB maxB n ⟨0, t, false⟩).task.dst_sent = t.dst_sent ++ t.queue
      ∧ (release_queue_run minB maxB n ⟨0, t, false⟩).task.blocking = false
      ∧ maxB < (release_queue_run minB maxB n ⟨0, t, false⟩).lasting_time := by
  obtain ⟨n, L2, hL2, hrun⟩ :=
    release_queue_reaches_drain minB maxB hmin t ht (maxB + 1) (minB + 1) (by omega) (by omega)
  refine ⟨n + 1, ?_⟩
  have hstep : release_queue_run minB maxB (n + 1) ⟨0, t, false⟩
      = release_queue_run minB maxB n ⟨minB + 1, t, false⟩ := by
    show release_queue_run minB maxB n (release_queue_step minB maxB ⟨0, t, false⟩) = _
    rw [release_queue_step_first]
  rw [hstep, hrun]
  refine ⟨rfl, rfl, rfl, ?_, rfl, hL2⟩
  simp [drain_waiting_queue, drain_loop_eq_append]

/-- A migrating task mid-switch with two buffered commands, for the claim C4
witness. -/
def demo_task : MigratingTaskState Nat :=
  { state := MigrationState.SwitchStarted, redirection_stopped := false,
    blocking := true, queue := [1, 2], dst_sent := [] }

/-- Claim C4 witness: the theorem at `min_blocking_time = 10`,
`max_blocking_time = 500` and a concrete task with a two-command queue. -/
theorem release_queue_forces_and_drains_witness :
    ∃ n, (release_queue_run 10 500 n ⟨0, demo_task, false⟩).stopped = true
      ∧ (release_queue_run 10 500 n ⟨0, demo_task, false⟩).task.state
          = MigrationState.SwitchCommitted
      ∧ (release_queue_run 10 500 n ⟨0, demo_task, false⟩).task.queue = []
      ∧ (release_queue_run 10 500 n ⟨0, demo_task, false⟩).task.dst_sent
          = demo_task.dst_sent ++ demo_task.queue
      ∧ (release_queue_run 10 500 n ⟨0, demo_task, false⟩).task.blocking = false
      ∧ 500 < (release_queue_run 10 500 n ⟨0, demo_task, false⟩).lasting_time :=
  release_queue_forces_and_drains 10 500 demo_task (by decide) (by decide)

set_option maxRecDepth 2000 in
/-- Claim C4 counterexample: with `min_blocking_time = 0` and
`max_blocking_time = 500`, the `release_queue` fold never forces the commit
and never drains.  The first round sets the accumulator to `0 + 0 + 1 = 1`;
every later round adds `min(0, 5) = 0`, so `⟨1, task, false⟩` is a fixed point
of the fold: the accumulator never exceeds `max_blocking_time`, and after any
number of rounds — here 100, the commit long unobserved — the state is still
not `SwitchCommitted`, the fold has not stopped and both buffered commands are
still stranded in the queue. -/
theorem release_queue_zero_min_blocking_counterexample :
    demo_task.state ≠ MigrationState.SwitchCommitted
    ∧ release_queue_step 0 500 ⟨0, demo_task, false⟩ = ⟨1, demo_task, false⟩
    ∧ release_queue_step 0 500 ⟨1, demo_task, false⟩ = ⟨1, demo_task, false⟩
    ∧ release_queue_run 0 500 100 ⟨0, demo_task, false⟩ = ⟨1, demo_task, false⟩
    ∧ demo_task.queue = [1, 2] := by
  decide

/-- The `commit_switch` reply handler answers `Ok(())` on every reply — error
or not — so it never tells `keep_sending_cmd` to stop. -/
theorem commit_switch_handle_ok (st : MigrationState) (r : RespV) :
    (commit_switch_handle st r).2 = Except.ok () := by
  cases r <;> rfl

/-- On a non-error reply the `commit_switch` handler moves the state to
`SwitchCommitted`; on an error reply it leaves the state alone. -/
theorem commit_switch_handle_fst (st : MigrationState) (r : RespV) :
    (commit_switch_handle st r).1
      = if r.isError then st else MigrationState.SwitchCommitted := by
  cases r <;> simp [commit_switch_handle, RespV.isError, set_state_committed]


/-- One round of `keep_sending_cmd` whose handler answers `Ok`: the loop
carries the handler state into the next round. -/
theorem keep_sending_step {σ : Type} (handle : σ → RespV → σ × Except RedisClientError Unit)
    (st : σ) (r : RespV) (rest : List (Except RedisClientError RespV))
    (h : (handle st r).2 = Except.ok ()) :
    keep_sending_cmd_run handle st (Except.ok r :: rest)
      = keep_sending_cmd_run handle (handle st r).1 rest := by
  rcases hpair : handle st r with ⟨st1, res⟩
  rw [hpair] at h
  simp only at h
  subst h
  simp only [keep_sending_cmd_run, hpair]

/-- The `commit_switch` retry loop never ends through its handler, whatever
replies and client failures occur. -/
theorem keep_sending_commit_never_stops (st : MigrationState)
    (es : List (Except RedisClientError RespV)) (e : RedisClientError) :
    (keep_sending_cmd_run commit_switch_handle st es).2 ≠ LoopEnd.handlerStopped e := by
  induction es generalizing st with
  | nil => simp [keep_sending_cmd_run]
  | cons x rest ih =>
    cases x with
    | error err => simp [keep_sending_cmd_run]
    | ok r =>
      rw [keep_sending_step _ _ _ _ (commit_switch_handle_ok st r)]
      exact ih _

/-- Once the state is `SwitchCommitted` it stays there for the rest of the
`commit_switch` loop. -/
theorem keep_sending_commit_stays (es : List (Except RedisClientError RespV)) :
    (keep_sending_cmd_run commit_switch_handle MigrationState.SwitchCommitted es).1
      = MigrationState.SwitchCommitted := by
  induction es with
  | nil => rfl
  | cons x rest ih =>
    cases x with
    | error err => rfl
    | ok r =>
      rw [keep_sending_step _ _ _ _ (commit_switch_handle_ok _ r)]
      have h1 : (commit_switch_handle MigrationState.SwitchCommitted r).1
          = MigrationState.SwitchCommitted := by
        rw [commit_switch_handle_fst]
        exact ite_self _
      rw [h1]
      exact ih

/-- The state the `commit_switch` loop ends in is `SwitchCommitted` exactly
when it started there or some reply was a non-error. -/
theorem keep_sending_commit_iff :
    ∀ (responses : List RespV) (st : MigrationState),
      (keep_sending_cmd_run commit_switch_handle st (responses.map Except.ok)).1
          = MigrationState.SwitchCommitted
        ↔ st = MigrationState.SwitchCommitted ∨ ∃ r ∈ responses, r.isError = false := by
  intro responses
  induction responses with
  | nil =>
    intro st
    simp [keep_sending_cmd_run]
  | cons r rest ih =>
    intro st
    rw [List.map_cons, keep_sending_step _ _ _ _ (commit_switch_handle_ok st r)]
    by_cases hr : r.isError = true
    · have hfst : (commit_switch_handle st r).1 = st := by
        rw [commit_switch_handle_fst, hr, if_pos rfl]
      rw [hfst, ih st]
      constructor
      · rintro (h | ⟨r2, hr2, he⟩)
        · exact Or.inl h
        · exact Or.inr ⟨r2, List.mem_cons_of_mem r hr2, he⟩
      · rintro (h | ⟨r2, hr2, he⟩)
        · exact Or.inl h
        · rcases List.mem_cons.mp hr2 with rfl | h2
          · rw [hr] at he
            exact Bool.noConfusion he
          · exact Or.inr ⟨r2, h2, he⟩
    · have hrf : r.isError = false := by
        revert hr
        cases r.isError <;> simp
      have hfst : (commit_switch_handle st r).1 = MigrationState.SwitchCommitted := by
        rw [commit_switch_handle_fst, hrf, if_neg (by simp)]
      rw [hfst, keep_sending_commit_stays]
      exact ⟨fun _ => Or.inr ⟨r, List.mem_cons_self r rest, hrf⟩, fun _ => rfl⟩

/-- Claim C2 counterexample: the destination answers `+OK` to `TMPSWITCH`;
the state advances to `SwitchCommitted`, but the phase has not terminated —
the loop is still running (it would issue the command again), contrary to
"a non-error reply … terminates the phase (the retry loop ends)". -/
theorem commit_switch_loop_counterexample :
    keep_sending_cmd_run commit_switch_handle MigrationState.SwitchStarted
        [Except.ok (RespV.Simple "OK".toList)]
      = (MigrationState.SwitchCommitted, LoopEnd.stillRunning) := by
  decide

/-- Claim C2 (amended): `TMPSWITCH` is retried on a 1-second interval; an
error reply is logged and leaves the state alone, so the loop retries; a
non-error reply advances the state to `SwitchCommitted` — but the handler
still returns `Ok`, so the retry loop never terminates on its own (it ends
only when the whole migration future is stopped). -/
theorem commit_switch_loop_behaviour (st : MigrationState)
    (es : List (Except RedisClientError RespV)) (responses : List RespV)
    (e : RedisClientError) (err_text : Str) :
    commit_switch_interval_ms = 1000
    ∧ commit_switch_handle st (RespV.Error err_text) = (st, Except.ok ())
    ∧ (keep_sending_cmd_run commit_switch_handle st es).2 ≠ LoopEnd.handlerStopped e
    ∧ ((keep_sending_cmd_run commit_switch_handle st (responses.map Except.ok)).1
          = MigrationState.SwitchCommitted
        ↔ st = MigrationState.SwitchCommitted ∨ ∃ r ∈ responses, r.isError = false) :=
  ⟨rfl, rfl, keep_sending_commit_never_stops st es e, keep_sending_commit_iff responses st⟩

/-- The written output of `handle_session` from any request index is the
reply packets of an in-order prefix of the requests read. -/
theorem handle_session_run_written (reply : Nat → Except CommandError RespV) :
    ∀ (batches : List (List (Except SessionError RespV))) (idx : Nat),
      ∃ n, n ≤ (requests_read batches).length
        ∧ (handle_session_run reply idx batches).1
            = (List.range n).map (fun i => session_reply_packet reply (idx + i)) := by
  intro batches
  induction batches with
  | nil =>
    intro idx
    exact ⟨0, by simp, by simp [handle_session_run]⟩
  | cons batch rest ih =>
    intro idx
    rcases hcb : collect_batch batch with ⟨reqs, err⟩
    cases err with
    | some e =>
      refine ⟨0, by simp, ?_⟩
      simp [handle_session_run, hcb]
    | none =>
      obtain ⟨n, hn, hw⟩ := ih (idx + reqs.length)
      refine ⟨reqs.length + n, ?_, ?_⟩
      · have : requests_read (batch :: rest) = reqs ++ requests_read rest := by
          simp [requests_read, hcb]
        rw [this, List.length_append]
        omega
      · simp only [handle_session_run, hcb, hw]
        rw [List.range_add, List.map_append, List.map_map]
        congr 1
        apply List.map_congr_left
        intro x _
        simp [Nat.add_assoc]

/-- Claim C3: the sequence of reply packets a session writes is, in order,
the replies to requests `0, 1, …, n-1` for some `n` not exceeding the number
of requests read — the reply to request `i` is written before the reply to
request `i+1`, whatever the backends did, and nothing is written out of
order. -/
theorem session_replies_in_request_order (reply : Nat → Except CommandError RespV)
    (batches : List (List (Except SessionError RespV))) :
    ∃ n, n ≤ (requests_read batches).length
      ∧ (handle_session_run reply 0 batches).1
          = (List.range n).map (session_reply_packet reply) := by
  obtain ⟨n, hn, hw⟩ := handle_session_run_written reply batches 0
  refine ⟨n, hn, ?_⟩
  rw [hw]
  apply List.map_congr_left
  intro x _
  simp
